import Mathlib

/-!
Verification of the Stripe Connect backend (`connect_backend/api/index.py`).

Modelling conventions:
* Python `int` is modelled by `ℤ`.
* Python `float` decimal amounts are modelled by `ℚ` (exact decimal
  idealization of the IEEE value written in the source inputs).
* Python `int(x)` (truncation toward zero) is `pyInt`.
* Optional values (`Optional[str]`, missing JSON keys) are `Option`.
* The external payment-processor client (`stripe.*`) is out of scope of the
  repository; where an endpoint's behaviour depends on its outcome, the
  outcome is modelled explicitly (see `construct_event`).
-/

/-- Python `int(q)` for a rational: truncation toward zero. -/
def pyInt (q : ℚ) : ℤ :=
  if q < 0 then ⌈q⌉ else ⌊q⌋

/-- Modelled from the spec: Python `round(q)` (round half to even), the
conversion the spec prescribes as `round(price * 100)`.  Used only to compare
the spec's wording against the source's `int(price * 100)`. -/
def pyRound (q : ℚ) : ℤ :=
  if q - ⌊q⌋ < 1/2 then ⌊q⌋
  else if 1/2 < q - ⌊q⌋ then ⌊q⌋ + 1
  else if 2 ∣ ⌊q⌋ then ⌊q⌋ else ⌊q⌋ + 1

/-- `calculate_platform_fee` from `index.py` lines 30-36. -/
def calculate_platform_fee (amount : ℤ) : ℤ :=
  if amount ≤ 10000 then 1000
  else if amount ≤ 20000 then 1500
  else 2000

/-- Pydantic model `CartItem`: name, decimal price, integer quantity,
optional image URL. -/
structure CartItem where
  name : String
  price : ℚ
  quantity : ℤ
  image : Option String
deriving DecidableEq

/-- Pydantic model `CheckoutRequest`. -/
structure CheckoutRequest where
  items : List CartItem
  customer_id : Option String
deriving DecidableEq

/-- Process-wide configuration read from the environment at startup. -/
structure Config where
  frontend_url : String
  zara_account_id : String
deriving DecidableEq

/-- One entry of the `line_items` list built by `create_checkout_session`. -/
structure LineItem where
  currency : String
  product_name : String
  images : List String
  unit_amount : ℤ
  quantity : ℤ
deriving DecidableEq

/-- Customer association of the outbound session: either an explicit
`customer` id or `customer_creation = always`; the source sets exactly one
of the two keys (lines 98-101). -/
inductive CustomerMode where
  | known (id : String)
  | createNew
deriving DecidableEq

/-- The keyword arguments assembled in `session_args` (lines 83-101). -/
structure SessionArgs where
  payment_method_types : List String
  line_items : List LineItem
  mode : String
  invoice_creation_enabled : Bool
  application_fee_amount : ℤ
  transfer_destination : String
  success_url : String
  cancel_url : String
  customerMode : CustomerMode
deriving DecidableEq

/-- The line item built for one cart item in the loop at lines 65-79,
including the truthiness test `[item.image] if item.image else []`. -/
def buildLineItem (item : CartItem) : LineItem :=
  { currency := "usd"
    product_name := item.name
    images :=
      match item.image with
      | some img => if img = "" then [] else [img]
      | none => []
    unit_amount := pyInt (item.price * 100)
    quantity := item.quantity }

/-- The `total_amount` accumulator of the loop at lines 64-68:
`total_amount += int(item.price * 100) * item.quantity`. -/
def cartTotal (items : List CartItem) : ℤ :=
  items.foldl (fun acc item => acc + pyInt (item.price * 100) * item.quantity) 0

/-- The truthiness test `if data.customer_id:` at lines 98-101: `None` and
the empty string are falsy, anything else attaches the id. -/
def customerModeOf (cid : Option String) : CustomerMode :=
  match cid with
  | some s => if s = "" then CustomerMode.createNew else CustomerMode.known s
  | none => CustomerMode.createNew

/-- `create_checkout_session` (lines 61-103): the session-spec construction,
up to the hand-off to the processor client. -/
def create_checkout_session (cfg : Config) (data : CheckoutRequest) : SessionArgs :=
  { payment_method_types := ["card"]
    line_items := data.items.map buildLineItem
    mode := "payment"
    invoice_creation_enabled := true
    application_fee_amount := calculate_platform_fee (cartTotal data.items)
    transfer_destination := cfg.zara_account_id
    success_url := cfg.frontend_url ++ "/success?session_id=\x7bCHECKOUT_SESSION_ID\x7d"
    cancel_url := cfg.frontend_url ++ "/"
    customerMode := customerModeOf data.customer_id }

/-- The fields of `event["data"]["object"]` read by the webhook handlers
(lines 166-223).  Keys accessed with `[...]` are mandatory fields; keys
accessed with `.get(...)` are `Option`s. -/
structure EventData where
  id : String
  customer : Option String
  amount_total : Option ℤ
  payment_intent : Option String
  amount : ℤ
  currency : String
  transfer : Option String
  destination : String
deriving DecidableEq

/-- A verified webhook event: its type tag, the optional originating
connected-account context, and its data object. -/
structure Event where
  type : String
  account : Option String
  data_object : EventData
deriving DecidableEq

/-- The two verification failures distinguished at lines 151-156:
`ValueError` (invalid payload) and `SignatureVerificationError`. -/
inductive VerifyError where
  | invalidPayload
  | invalidSignature
deriving DecidableEq

/-- A raw webhook body: either bytes that do not parse as an event
envelope, or bytes carrying an event envelope. -/
inductive RawPayload where
  | malformed (bytes : String)
  | envelope (e : Event) (bytes : String)
deriving DecidableEq

/-- Modelled from the spec: the processor client's signature over the exact
raw bytes under the shared signing secret, abstracted as a secret-keyed
tag (the concrete HMAC lives in the external `stripe` library). -/
def webhookMac (secret bytes : String) : String :=
  secret ++ ":" ++ bytes

/-- Modelled from the spec: `stripe.Webhook.construct_event` (external
collaborator, lines 146-150): a body that does not parse as the expected
envelope fails with invalid payload; a parsed envelope whose signature
header does not match the configured secret fails with invalid signature;
otherwise the parsed event is returned. -/
def construct_event (payload : RawPayload) (sig : Option String)
    (secret : String) : Except VerifyError Event :=
  match payload with
  | RawPayload.malformed _ => Except.error VerifyError.invalidPayload
  | RawPayload.envelope e bytes =>
      if sig = some (webhookMac secret bytes) then Except.ok e
      else Except.error VerifyError.invalidSignature

/-- The handler branch fired by the dispatch at lines 166-227, recording the
fields each branch extracts from the event's data object. -/
inductive HandlerAction where
  | checkoutCompleted (sessionId : String) (customer : Option String)
      (amountTotal : Option ℤ) (paymentIntent : Option String)
  | paymentIntentSucceeded (intentId : String) (amount : ℤ)
      (currency : String) (customer : Option String)
  | chargeSucceeded (chargeId : String) (amount : ℤ) (transfer : Option String)
  | transferCreated (transferId : String) (amount : ℤ) (destination : String)
  | transferPaid (transferId : String) (amount : ℤ)
  | unhandled (eventType : String)
deriving DecidableEq

/-- Outcome of one webhook delivery: a 400 rejection with a detail string,
or an acknowledgment carrying the handler branch that fired and the
`status` value of the response body. -/
inductive WebhookResult where
  | reject (statusCode : ℕ) (detail : String)
  | ack (action : HandlerAction) (status : String)
deriving DecidableEq

/-- `event.get("account", "platform")` at line 158. -/
def connectedAccountOf (e : Event) : String :=
  e.account.getD "platform"

/-- The `if`/`elif` dispatch on `event["type"]` at lines 166-227. -/
def dispatch (e : Event) : HandlerAction :=
  if e.type = "checkout.session.completed" then
    HandlerAction.checkoutCompleted e.data_object.id e.data_object.customer
      e.data_object.amount_total e.data_object.payment_intent
  else if e.type = "payment_intent.succeeded" then
    HandlerAction.paymentIntentSucceeded e.data_object.id e.data_object.amount
      e.data_object.currency e.data_object.customer
  else if e.type = "charge.succeeded" then
    HandlerAction.chargeSucceeded e.data_object.id e.data_object.amount
      e.data_object.transfer
  else if e.type = "transfer.created" then
    HandlerAction.transferCreated e.data_object.id e.data_object.amount
      e.data_object.destination
  else if e.type = "transfer.paid" then
    HandlerAction.transferPaid e.data_object.id e.data_object.amount
  else
    HandlerAction.unhandled e.type

/-- `stripe_webhook` (lines 141-230): verify, map the two verification
failures to 400 responses with their detail strings, otherwise dispatch and
return `status = "success"`. -/
def stripe_webhook (payload : RawPayload) (sig : Option String)
    (secret : String) : WebhookResult :=
  match construct_event payload sig secret with
  | Except.error VerifyError.invalidPayload =>
      WebhookResult.reject 400 "Invalid payload"
  | Except.error VerifyError.invalidSignature =>
      WebhookResult.reject 400 "Invalid signature"
  | Except.ok e => WebhookResult.ack (dispatch e) "success"

/-! ## Theorems -/

/-- C1: for every integer total in minor units, the platform fee is 1000
for totals at most 10000, 1500 for totals in (10000, 20000], and 2000 above
20000; the boundaries 10000 and 20000 select the lower tier. -/
theorem platform_fee_tier_schedule (amount : ℤ) :
    (amount ≤ 10000 → calculate_platform_fee amount = 1000) ∧
    (10000 < amount → amount ≤ 20000 → calculate_platform_fee amount = 1500) ∧
    (20000 < amount → calculate_platform_fee amount = 2000) ∧
    calculate_platform_fee 10000 = 1000 ∧
    calculate_platform_fee 20000 = 1500 := by
  unfold calculate_platform_fee
  refine ⟨fun h => ?_, fun h1 h2 => ?_, fun h => ?_, ?_, ?_⟩ <;>
    split_ifs <;> omega

theorem platform_fee_tier_schedule_witness :
    calculate_platform_fee 9999 = 1000 ∧
    calculate_platform_fee 15000 = 1500 ∧
    calculate_platform_fee 25000 = 2000 :=
  ⟨(platform_fee_tier_schedule 9999).1 (by decide),
   (platform_fee_tier_schedule 15000).2.1 (by decide) (by decide),
   (platform_fee_tier_schedule 25000).2.2.1 (by decide)⟩

/-- A one-item cart with unit price 1.00 (major units) and quantity 1:
every price is positive, yet the total is 100 minor units. -/
def c2Cart : List CartItem :=
  [{ name := "item", price := 1, quantity := 1, image := none }]

/-- C2 counterexample: a non-empty cart with positive prices whose total is
100 minor units gets the flat 1000 fee, which is not below the total. -/
theorem fee_below_total_counterexample :
    c2Cart ≠ [] ∧ (∀ i ∈ c2Cart, 0 < i.price) ∧
    cartTotal c2Cart = 100 ∧
    ¬ calculate_platform_fee (cartTotal c2Cart) < cartTotal c2Cart := by
  refine ⟨by simp [c2Cart], ?_, ?_, ?_⟩
  · intro i hi
    simp only [c2Cart, List.mem_singleton] at hi
    subst hi
    norm_num
  · norm_num [c2Cart, cartTotal, pyInt]
  · norm_num [c2Cart, cartTotal, pyInt, calculate_platform_fee]

/-- C2 amended: for every non-empty cart with positive prices whose total
exceeds 1000 minor units, the platform fee is strictly below the total. -/
theorem fee_below_total (items : List CartItem) (hne : items ≠ [])
    (hpos : ∀ i ∈ items, 0 < i.price) (htot : 1000 < cartTotal items) :
    calculate_platform_fee (cartTotal items) < cartTotal items := by
  unfold calculate_platform_fee
  split_ifs <;> omega

theorem fee_below_total_witness :
    calculate_platform_fee
        (cartTotal [{ name := "a", price := 50, quantity := 2, image := none }])
      < cartTotal [{ name := "a", price := 50, quantity := 2, image := none }] :=
  fee_below_total [{ name := "a", price := 50, quantity := 2, image := none }]
    (by simp)
    (by intro i hi
        simp only [List.mem_singleton] at hi
        subst hi
        norm_num)
    (by norm_num [cartTotal, pyInt])

/-- A fixed configuration used for concrete counterexamples and witnesses. -/
def cfg0 : Config :=
  { frontend_url := "http://localhost:5173", zara_account_id := "acct_zara" }

/-- A checkout request whose `customer_id` field is present but empty. -/
def c3Req : CheckoutRequest :=
  { items := [{ name := "item", price := 1, quantity := 1, image := none }]
    customer_id := some "" }

/-- C3 counterexample: with `customer_id` present and equal to `""`, the
built session does not carry that identity and does request auto-creation,
because line 98 tests truthiness (`if data.customer_id:`), not presence. -/
theorem customer_attach_counterexample :
    c3Req.customer_id = some "" ∧
    (create_checkout_session cfg0 c3Req).customerMode ≠ CustomerMode.known "" ∧
    (create_checkout_session cfg0 c3Req).customerMode = CustomerMode.createNew := by
  refine ⟨rfl, ?_, rfl⟩
  simp [create_checkout_session, customerModeOf, c3Req]

/-- C3 amended: if `customer_id` is present and non-empty the session
carries exactly that identity and does not request auto-creation; if it is
absent (or empty, which line 98's truthiness test treats as absent) the
session requests auto-creation and carries no identity; the two modes are
mutually exclusive in every constructed session. -/
theorem customer_mode_exclusive (cfg : Config) (data : CheckoutRequest) :
    (∀ id, data.customer_id = some id → id ≠ "" →
      (create_checkout_session cfg data).customerMode = CustomerMode.known id) ∧
    ((data.customer_id = none ∨ data.customer_id = some "") →
      ((create_checkout_session cfg data).customerMode = CustomerMode.createNew ∧
       ∀ id, (create_checkout_session cfg data).customerMode ≠ CustomerMode.known id)) ∧
    (∀ id, ¬((create_checkout_session cfg data).customerMode = CustomerMode.known id ∧
      (create_checkout_session cfg data).customerMode = CustomerMode.createNew)) := by
  refine ⟨?_, ?_, ?_⟩
  · intro id hid hne
    simp [create_checkout_session, customerModeOf, hid, hne]
  · rintro (h | h) <;>
      simp [create_checkout_session, customerModeOf, h]
  · rintro id ⟨h1, h2⟩
    rw [h1] at h2
    exact CustomerMode.noConfusion h2

theorem customer_mode_exclusive_witness :
    (create_checkout_session cfg0
        { items := [], customer_id := some "cus_123" }).customerMode
      = CustomerMode.known "cus_123" :=
  (customer_mode_exclusive cfg0
      { items := [], customer_id := some "cus_123" }).1
    "cus_123" rfl (by simp)

/-- C10: a present-but-empty `customer_id` is treated exactly as an absent
one: the session requests auto-creation (`customer_creation = always`) and
does not attach the empty-string identity. -/
theorem empty_customer_id_creates_new (cfg : Config) (items : List CartItem) :
    (create_checkout_session cfg
        { items := items, customer_id := some "" }).customerMode
      = CustomerMode.createNew ∧
    ∀ id, (create_checkout_session cfg
        { items := items, customer_id := some "" }).customerMode
      ≠ CustomerMode.known id := by
  constructor
  · simp [create_checkout_session, customerModeOf]
  · intro id
    simp [create_checkout_session, customerModeOf]

/-- C4: a body that does not parse as the expected envelope is rejected
with 400 "Invalid payload"; a parsed envelope whose signature header does
not match the configured secret is rejected with 400 "Invalid signature";
in both cases the delivery is never acknowledged, so no handler branch
fires and no success response is returned. -/
theorem webhook_verification_failures (bytes secret : String)
    (sig : Option String) :
    stripe_webhook (RawPayload.malformed bytes) sig secret
      = WebhookResult.reject 400 "Invalid payload" ∧
    (∀ e : Event, sig ≠ some (webhookMac secret bytes) →
      stripe_webhook (RawPayload.envelope e bytes) sig secret
        = WebhookResult.reject 400 "Invalid signature") ∧
    (∀ a st, stripe_webhook (RawPayload.malformed bytes) sig secret
        ≠ WebhookResult.ack a st) ∧
    (∀ e a st, sig ≠ some (webhookMac secret bytes) →
      stripe_webhook (RawPayload.envelope e bytes) sig secret
        ≠ WebhookResult.ack a st) := by
  refine ⟨rfl, ?_, ?_, ?_⟩
  · intro e hsig
    simp [stripe_webhook, construct_event, hsig]
  · intro a st
    simp [stripe_webhook, construct_event]
  · intro e a st hsig
    simp [stripe_webhook, construct_event, hsig]

theorem webhook_verification_failures_witness :
    stripe_webhook (RawPayload.malformed "not json") none "whsec_test"
      = WebhookResult.reject 400 "Invalid payload" ∧
    stripe_webhook
        (RawPayload.envelope
          { type := "charge.succeeded", account := none,
            data_object :=
              { id := "ch_1", customer := none, amount_total := none,
                payment_intent := none, amount := 100, currency := "usd",
                transfer := none, destination := "" } }
          "body")
        (some "forged") "whsec_test"
      = WebhookResult.reject 400 "Invalid signature" :=
  ⟨(webhook_verification_failures "not json" "whsec_test" none).1,
   (webhook_verification_failures "body" "whsec_test" (some "forged")).2.1
     { type := "charge.succeeded", account := none,
       data_object :=
         { id := "ch_1", customer := none, amount_total := none,
           payment_intent := none, amount := 100, currency := "usd",
           transfer := none, destination := "" } }
     (by simp [webhookMac])⟩

/-- C5: once verification passes, the delivery is acknowledged with
`status = "success"` carrying exactly the dispatch branch selected by exact
match on the event's type among the five handled types; any other type
takes the unhandled branch. -/
theorem webhook_dispatch_and_ack (bytes secret : String) (e : Event) :
    stripe_webhook (RawPayload.envelope e bytes)
        (some (webhookMac secret bytes)) secret
      = WebhookResult.ack (dispatch e) "success" ∧
    (e.type = "checkout.session.completed" →
      dispatch e = HandlerAction.checkoutCompleted e.data_object.id
        e.data_object.customer e.data_object.amount_total
        e.data_object.payment_intent) ∧
    (e.type = "payment_intent.succeeded" →
      dispatch e = HandlerAction.paymentIntentSucceeded e.data_object.id
        e.data_object.amount e.data_object.currency e.data_object.customer) ∧
    (e.type = "charge.succeeded" →
      dispatch e = HandlerAction.chargeSucceeded e.data_object.id
        e.data_object.amount e.data_object.transfer) ∧
    (e.type = "transfer.created" →
      dispatch e = HandlerAction.transferCreated e.data_object.id
        e.data_object.amount e.data_object.destination) ∧
    (e.type = "transfer.paid" →
      dispatch e = HandlerAction.transferPaid e.data_object.id
        e.data_object.amount) ∧
    (e.type ∉ ["checkout.session.completed", "payment_intent.succeeded",
        "charge.succeeded", "transfer.created", "transfer.paid"] →
      dispatch e = HandlerAction.unhandled e.type) := by
  refine ⟨?_, ?_, ?_, ?_, ?_, ?_, ?_⟩
  · simp [stripe_webhook, construct_event]
  · intro h
    simp [dispatch, h]
  · intro h
    simp [dispatch, h]
  · intro h
    simp [dispatch, h]
  · intro h
    simp [dispatch, h]
  · intro h
    simp [dispatch, h]
  · intro h
    simp only [List.mem_cons, List.not_mem_nil, or_false, not_or] at h
    obtain ⟨h1, h2, h3, h4, h5⟩ := h
    simp [dispatch, h1, h2, h3, h4, h5]

theorem webhook_dispatch_and_ack_witness :
    stripe_webhook
        (RawPayload.envelope
          { type := "invoice.paid", account := none,
            data_object :=
              { id := "in_1", customer := none, amount_total := none,
                payment_intent := none, amount := 5, currency := "usd",
                transfer := none, destination := "" } }
          "raw")
        (some (webhookMac "whsec_test" "raw")) "whsec_test"
      = WebhookResult.ack (HandlerAction.unhandled "invoice.paid") "success" := by
  have h := webhook_dispatch_and_ack "raw" "whsec_test"
    { type := "invoice.paid", account := none,
      data_object :=
        { id := "in_1", customer := none, amount_total := none,
          payment_intent := none, amount := 5, currency := "usd",
          transfer := none, destination := "" } }
  rw [h.1, h.2.2.2.2.2.2 (by simp)]

/-- A cart item priced 1.999 major units: `int(1.999 * 100) = 199` while
`round(1.999 * 100) = 200`. -/
def c6Item : CartItem :=
  { name := "item", price := 1999/1000, quantity := 1, image := none }

/-- C6 counterexample: the source converts with `int(item.price * 100)`
(truncation toward zero), not `round(price * 100)`: at price 1.999 the
built line item carries 199 minor units while rounding gives 200. -/
theorem per_item_rounding_counterexample :
    (buildLineItem c6Item).unit_amount = 199 ∧
    pyRound (c6Item.price * 100) = 200 ∧
    ¬ (buildLineItem c6Item).unit_amount = pyRound (c6Item.price * 100) := by
  have hq : c6Item.price * 100 = 1999/10 := by norm_num [c6Item]
  have hf : ⌊(1999/10 : ℚ)⌋ = 199 := by norm_num [Int.floor_eq_iff]
  have h1 : (buildLineItem c6Item).unit_amount = 199 := by
    simp only [buildLineItem, pyInt, hq]
    rw [if_neg (by norm_num), hf]
  have h2 : pyRound (c6Item.price * 100) = 200 := by
    rw [hq, pyRound, hf]
    norm_num
  exact ⟨h1, h2, by rw [h1, h2]; decide⟩

/-- Folding `acc + f i` over a list starting from `a` is `a` plus the sum of
the mapped list. -/
theorem foldl_add_map_sum (f : CartItem → ℤ) :
    ∀ (l : List CartItem) (a : ℤ),
      l.foldl (fun acc i => acc + f i) a = a + (l.map f).sum := by
  intro l
  induction l with
  | nil => intro a; simp
  | cons x xs ih =>
      intro a
      simp only [List.foldl_cons, List.map_cons, List.sum_cons, ih]
      ring

/-- C6 amended: each line item's minor-unit price is the truncation
`int(price * 100)` of that item's decimal price (per item, not on the
aggregate), and the cart total is the sum over items of that per-item
minor-unit price times the item's quantity. -/
theorem per_item_conversion_and_total (cfg : Config) (data : CheckoutRequest) :
    ((create_checkout_session cfg data).line_items.map LineItem.unit_amount)
      = data.items.map (fun i => pyInt (i.price * 100)) ∧
    cartTotal data.items
      = (data.items.map (fun i => pyInt (i.price * 100) * i.quantity)).sum := by
  constructor
  · simp [create_checkout_session, List.map_map, Function.comp, buildLineItem]
  · simpa using
      foldl_add_map_sum (fun i => pyInt (i.price * 100) * i.quantity)
        data.items 0

/-- C7: every constructed session accepts only card, uses one-shot payment
mode, enables invoice creation, applies the tiered fee for the cart total
and routes the transfer to the configured connected account; the cart
`[(price 50.00, qty 2)]` totals 10000, yielding fee 1000. -/
theorem session_construction_fields (cfg : Config) (data : CheckoutRequest) :
    (create_checkout_session cfg data).payment_method_types = ["card"] ∧
    (create_checkout_session cfg data).mode = "payment" ∧
    (create_checkout_session cfg data).invoice_creation_enabled = true ∧
    (create_checkout_session cfg data).application_fee_amount
      = calculate_platform_fee (cartTotal data.items) ∧
    (create_checkout_session cfg data).transfer_destination
      = cfg.zara_account_id ∧
    cartTotal [{ name := "tee", price := 50, quantity := 2, image := none }]
      = 10000 ∧
    calculate_platform_fee 10000 = 1000 ∧
    (create_checkout_session cfg
        { items := [{ name := "tee", price := 50, quantity := 2, image := none }],
          customer_id := none }).application_fee_amount = 1000 := by
  have htot :
      cartTotal [{ name := "tee", price := 50, quantity := 2, image := none }]
        = 10000 := by
    norm_num [cartTotal, pyInt]
  refine ⟨rfl, rfl, rfl, rfl, rfl, htot, by decide, ?_⟩
  show calculate_platform_fee
      (cartTotal [{ name := "tee", price := 50, quantity := 2, image := none }])
    = 1000
  rw [htot]
  decide

/-- C8: the success URL is the configured frontend base URL followed by the
success path carrying the literal placeholder token CHECKOUT_SESSION_ID in
braces, verbatim and unresolved; the cancel URL derives from the same base
URL. -/
theorem redirect_url_placeholder (cfg : Config) (data : CheckoutRequest) :
    (create_checkout_session cfg data).success_url
      = cfg.frontend_url ++ "/success?session_id=\x7bCHECKOUT_SESSION_ID\x7d" ∧
    (create_checkout_session cfg data).cancel_url = cfg.frontend_url ++ "/" :=
  ⟨rfl, rfl⟩

/-- C9: the empty cart is not rejected: the builder computes total 0, fee
1000 (exceeding the total) and a session spec with an empty line-item list
and application fee 1000. -/
theorem empty_cart_session (cfg : Config) :
    cartTotal ([] : List CartItem) = 0 ∧
    (create_checkout_session cfg
        { items := [], customer_id := none }).line_items = [] ∧
    (create_checkout_session cfg
        { items := [], customer_id := none }).application_fee_amount = 1000 ∧
    cartTotal ([] : List CartItem)
      < (create_checkout_session cfg
          { items := [], customer_id := none }).application_fee_amount := by
  refine ⟨rfl, rfl, ?_, ?_⟩ <;>
    simp [create_checkout_session, cartTotal, calculate_platform_fee]
